import Mathlib

/-!
Shallow embedding of `src/07-EXAMPLES/data-science-pipeline.py`.

DataFrames are modelled column-major: a column has a name, a pandas dtype
tag and a list of cells; a missing cell (NaN / NaT / None) is `none`.
Python floats are modelled by exact rationals, machine integers by `Int`
with explicit wrap-around (`% 2^w`) where a numpy `astype` could overflow.
Fallible Python code (raising exceptions) is modelled with `Except`.
-/

/-- Python scalar values stored in DataFrame cells. -/
inductive Val where
  | vInt : Int → Val
  | vRat : Rat → Val
  | vStr : String → Val
deriving DecidableEq, Repr

/-- Pandas dtype tags used by the pipeline. -/
inductive Dtype where
  | int64
  | float64
  | obj
  | category
  | datetime64
  | uint8
  | uint16
  | uint32
  | int8
  | int16
  | int32
deriving DecidableEq, Repr

/-- One DataFrame column: its label, dtype and cells (a missing value is none). -/
structure Column where
  name : String
  dtype : Dtype
  cells : List (Option Val)
deriving DecidableEq, Repr

/-- A pandas DataFrame, column-major. -/
structure DataFrame where
  cols : List Column
deriving DecidableEq, Repr

/-- Column labels, in order (pandas `df.columns`). -/
def DataFrame.colNames (df : DataFrame) : List String :=
  df.cols.map (fun c => c.name)

/-- Number of rows (pandas `len(df)`); all columns of a well-formed frame agree. -/
def DataFrame.nRows (df : DataFrame) : Nat :=
  match df.cols with
  | [] => 0
  | c :: _ => c.cells.length

/-- Well-formedness: every column has exactly `nRows` cells. -/
def DataFrame.wf (df : DataFrame) : Prop :=
  ∀ c ∈ df.cols, c.cells.length = df.nRows

/-- Count of missing cells in a column (pandas `col.isnull().sum()`). -/
def Column.missingCount (c : Column) : Nat :=
  c.cells.countP (fun x => x = none)

/-- Row extraction: the i-th cell of every column (out-of-range reads give none;
well-formed frames never read out of range). -/
def DataFrame.row (df : DataFrame) (i : Nat) : List (Option Val) :=
  df.cols.map (fun c => c.cells.getD i none)

/-- Pandas `df.duplicated().sum()` with the default keep="first": the number of
rows that coincide with some earlier row.  Pandas treats NaN cells as equal for
this purpose, as does equality on `Option Val`. -/
def DataFrame.duplicateRows (df : DataFrame) : Nat :=
  (List.range df.nRows).countP (fun i => (List.range i).any (fun j => df.row j == df.row i))

/-- Printable dtype name (pandas `df.dtypes.astype(str)`). -/
def Dtype.str : Dtype → String
  | .int64 => "int64"
  | .float64 => "float64"
  | .obj => "object"
  | .category => "category"
  | .datetime64 => "datetime64[ns]"
  | .uint8 => "uint8"
  | .uint16 => "uint16"
  | .uint32 => "uint32"
  | .int8 => "int8"
  | .int16 => "int16"
  | .int32 => "int32"

/-- DataQualityReport dataclass of the pipeline (the memory_usage string is
omitted: it reports pandas-internal byte counts). -/
structure DataQualityReport where
  total_rows : Nat
  total_columns : Nat
  missing_values : List (String × Nat)
  duplicate_rows : Nat
  data_types : List (String × String)
  quality_score : Rat
deriving Repr

/-- ModernDataLoader.generate_quality_report: missing counts per column,
duplicate row count, and quality_score = 1.0 - (missing_ratio * 0.5 +
duplicate_ratio * 0.5), computed over exact rationals. -/
def generate_quality_report (df : DataFrame) : DataQualityReport :=
  let missing_values := df.cols.map (fun c => (c.name, c.missingCount))
  let duplicate_rows := df.duplicateRows
  let missing_ratio : Rat :=
    ((missing_values.map (fun p => p.2)).sum : Nat) / ((df.nRows * df.cols.length : Nat) : Rat)
  let duplicate_ratio : Rat := (duplicate_rows : Nat) / ((df.nRows : Nat) : Rat)
  { total_rows := df.nRows
    total_columns := df.cols.length
    missing_values := missing_values
    duplicate_rows := duplicate_rows
    data_types := df.cols.map (fun c => (c.name, c.dtype.str))
    quality_score := 1 - (missing_ratio * (1/2) + duplicate_ratio * (1/2)) }

/-- Allowed file types of DataConfig.validate_file_type. -/
def allowed_types : List String := ["csv", "json", "parquet", "excel"]

/-- DataConfig.validate_file_type: reject any file_type outside allowed_types,
return the value unchanged otherwise. -/
def validate_file_type (v : String) : Except String String :=
  if v ∈ allowed_types then Except.ok v
  else Except.error ("File type must be one of " ++ String.intercalate ", " allowed_types)

/-- DataConfig.validate_file_exists: reject paths that do not exist.  The file
system is abstracted as the predicate path_exists. -/
def validate_file_exists (path_exists : String → Bool) (v : String) : Except String String :=
  if path_exists v then Except.ok v
  else Except.error ("File does not exist: " ++ v)

/-- DataConfig pydantic model (validated fields only; the remaining fields keep
their defaults and are not validated). -/
structure DataConfig where
  file_path : String
  file_type : String
deriving DecidableEq, Repr

/-- Pydantic construction of DataConfig: both field validators must accept. -/
def mkDataConfig (path_exists : String → Bool) (fp ft : String) : Except String DataConfig :=
  match validate_file_type ft with
  | Except.error e => Except.error e
  | Except.ok ft0 =>
    match validate_file_exists path_exists fp with
    | Except.error e => Except.error e
    | Except.ok fp0 => Except.ok { file_path := fp0, file_type := ft0 }

/-- Python exceptions raised by the transformers. -/
inductive PyErr where
  | typeError : String → PyErr
  | valueError : String → PyErr
  | notImplementedError : PyErr
deriving DecidableEq, Repr

/-- An argument passed to fit/transform: either a pandas DataFrame or any
other Python object (which isinstance rejects). -/
inductive PyInput where
  | frame : DataFrame → PyInput
  | nonFrame : PyInput
deriving Repr

/-- Fitted state shared by every TypeSafeFeatureTransformer: feature_names_
and the is_fitted_ flag. -/
structure TState where
  feature_names : Option (List String)
  is_fitted : Bool
deriving DecidableEq, Repr

/-- State set by TypeSafeFeatureTransformer.__init__. -/
def initTState : TState := { feature_names := none, is_fitted := false }

/-- TypeSafeFeatureTransformer._validate_input: TypeError unless the input is
a DataFrame; when fitted with known feature names, ValueError if any fitted
feature is missing from the input columns. -/
def validate_input (st : TState) (x : PyInput) : Except PyErr DataFrame :=
  match x with
  | PyInput.nonFrame => Except.error (PyErr.typeError "Input must be a pandas DataFrame")
  | PyInput.frame df =>
    match st.is_fitted, st.feature_names with
    | true, some names =>
      let missing := names.filter (fun n => n ∉ df.colNames)
      if missing = [] then Except.ok df
      else Except.error (PyErr.valueError "Missing features")
    | _, _ => Except.ok df

/-- TypeSafeFeatureTransformer.fit: validate, then record the column list and
set is_fitted_.  Subclass fits call this via super().fit. -/
def fitT (st : TState) (x : PyInput) : Except PyErr TState :=
  match validate_input st x with
  | Except.error e => Except.error e
  | Except.ok df => Except.ok { feature_names := some df.colNames, is_fitted := true }

/-- TypeSafeFeatureTransformer.transform, generic over the subclass
_transform_impl: ValueError when unfitted, then validate, then delegate. -/
def transformT (impl : DataFrame → Except PyErr DataFrame) (st : TState) (x : PyInput) :
    Except PyErr DataFrame :=
  if st.is_fitted then
    match validate_input st x with
    | Except.error e => Except.error e
    | Except.ok df => impl df
  else Except.error (PyErr.valueError "Transformer not fitted. Call fit() first.")

/-- Missing-cell ratio of a column (X[column].isnull().mean()), over exact
rationals. -/
def Column.missingRatio (c : Column) : Rat :=
  (c.missingCount : Rat) / (c.cells.length : Rat)

/-- Strategy chosen by SmartMissingValueImputer.fit for one column: none when
the column has no missing values (the loop skips it); under the auto strategy,
most_frequent for object and category dtypes, mean for float64 and int64
columns below ten percent missing, most_frequent for other dtypes below ten
percent missing, and knn otherwise; under any other configured strategy, that
strategy itself. -/
def imputerStrategyFor (strategy : String) (c : Column) : Option String :=
  if c.missingRatio = 0 then none
  else some (
    if strategy = "auto" then
      if c.dtype = Dtype.obj ∨ c.dtype = Dtype.category then "most_frequent"
      else if c.missingRatio < 1/10 then
        (if c.dtype = Dtype.float64 ∨ c.dtype = Dtype.int64 then "mean" else "most_frequent")
      else "knn"
    else strategy)

/-- SmartMissingValueImputer.fit strategies_ dict, as an association list in
column order. -/
def imputerFitStrategies (strategy : String) (df : DataFrame) : List (String × String) :=
  df.cols.filterMap (fun c => (imputerStrategyFor strategy c).map (fun s => (c.name, s)))

/-- Machine-integer values held by a column (the cells of a pandas int64
column are exactly these). -/
def Column.intVals (c : Column) : List Int :=
  c.cells.filterMap (fun x => match x with
    | some (Val.vInt z) => some z
    | _ => none)

/-- Pandas col.min() over the integer values, written as a fold. -/
def listMinI (z : Int) (zs : List Int) : Int := zs.foldl min z

/-- Pandas col.max() over the integer values, written as a fold. -/
def listMaxI (z : Int) (zs : List Int) : Int := zs.foldl max z

/-- Numpy astype to an unsigned integer dtype of width w: every stored
integer wraps modulo 2^w. -/
def astypeUnsigned (w : Nat) (c : Column) (d : Dtype) : Column :=
  { name := c.name, dtype := d,
    cells := c.cells.map (fun x => match x with
      | some (Val.vInt z) => some (Val.vInt (z % (2 ^ w)))
      | other => other) }

/-- Numpy astype to a signed integer dtype of width w: every stored integer
wraps into the interval from -2^(w-1) to 2^(w-1) - 1. -/
def astypeSigned (w : Nat) (c : Column) (d : Dtype) : Column :=
  { name := c.name, dtype := d,
    cells := c.cells.map (fun x => match x with
      | some (Val.vInt z) => some (Val.vInt ((z + 2 ^ (w - 1)) % (2 ^ w) - 2 ^ (w - 1)))
      | other => other) }

/-- The integer pass of ModernDataLoader._optimize_dtypes on one int64
column: numpy iinfo bounds, with the unsigned family when col.min() is
nonnegative and the signed family otherwise.  An empty column is left alone
(its pandas min is NaN and every comparison against NaN is false). -/
def optimizeIntColumn (c : Column) : Column :=
  match c.intVals with
  | [] => c
  | z :: zs =>
    if 0 ≤ listMinI z zs then
      if listMaxI z zs < 255 then astypeUnsigned 8 c Dtype.uint8
      else if listMaxI z zs < 65535 then astypeUnsigned 16 c Dtype.uint16
      else if listMaxI z zs < 4294967295 then astypeUnsigned 32 c Dtype.uint32
      else c
    else
      if -128 < listMinI z zs ∧ listMaxI z zs < 127 then astypeSigned 8 c Dtype.int8
      else if -32768 < listMinI z zs ∧ listMaxI z zs < 32767 then astypeSigned 16 c Dtype.int16
      else if -2147483648 < listMinI z zs ∧ listMaxI z zs < 2147483647 then astypeSigned 32 c Dtype.int32
      else c

/-- ModernDataLoader._optimize_dtypes, integer pass: downcast every int64
column.  The float64 downcast-to-float32 pass and the low-cardinality
object-to-category pass act on other dtypes and are outside this model (they
involve IEEE rounding and pandas categorical internals, not the integer
values this development tracks). -/
def optimize_dtypes (df : DataFrame) : DataFrame :=
  { cols := df.cols.map (fun c => if c.dtype = Dtype.int64 then optimizeIntColumn c else c) }

/-- The 1e-8 guard added to every ratio denominator in
AdvancedFeatureEngineer._create_interaction_features. -/
def eps : Rat := 1 / 100000000

/-- Numeric view of a column: integer and rational cells as rationals,
missing cells and strings as none (numpy NaN propagates through
arithmetic, as none does here). -/
def Column.numCells (c : Column) : List (Option Rat) :=
  c.cells.map (fun x => match x with
    | some (Val.vInt z) => some ((z : Int) : Rat)
    | some (Val.vRat q) => some q
    | _ => none)

/-- Elementwise interaction product X[col1] * X[col2]. -/
def interactionMul (a b : List (Option Rat)) : List (Option Rat) :=
  List.zipWith (fun x y => match x, y with
    | some u, some v => some (u * v)
    | _, _ => none) a b

/-- Elementwise ratio feature X[col1] / (X[col2] + 1e-8), exactly as the
source writes it: the denominator is the second value plus eps, never the
second value alone. -/
def interactionDiv (a b : List (Option Rat)) : List (Option Rat) :=
  List.zipWith (fun x y => match x, y with
    | some u, some v => some (u / (v + eps))
    | _, _ => none) a b

/-- Guarded variant of the ratio feature, the reference point for C10: it
divides only after checking the denominator is nonzero and refuses (none)
otherwise.  Agreement with interactionDiv states that the division of the
source never meets a zero denominator. -/
def checkedInteractionDiv (a b : List (Option Rat)) : List (Option Rat) :=
  List.zipWith (fun x y => match x, y with
    | some u, some v => if v + eps = 0 then none else some (u / (v + eps))
    | _, _ => none) a b

/-- itertools.combinations(columns, 2), pairs in order. -/
def pairCombos : List String → List (String × String)
  | [] => []
  | x :: xs => xs.map (fun y => (x, y)) ++ pairCombos xs

/-- Column access X[name]: the column carrying the label. -/
def DataFrame.getCol (df : DataFrame) (nm : String) : Option Column :=
  df.cols.find? (fun c => c.name = nm)

/-- Column assignment X[name] = values: overwrite in place when the label
exists, append on the right otherwise (pandas semantics). -/
def DataFrame.setCol (df : DataFrame) (c : Column) : DataFrame :=
  if df.cols.any (fun d => d.name = c.name) then
    { cols := df.cols.map (fun d => if d.name = c.name then c else d) }
  else { cols := df.cols ++ [c] }

/-- A freshly computed float64 feature column. -/
def mkNumColumn (nm : String) (vals : List (Option Rat)) : Column :=
  { name := nm, dtype := Dtype.float64,
    cells := vals.map (fun x => x.map Val.vRat) }

/-- AdvancedFeatureEngineer._create_interaction_features: for every ordered
pair from the first ten fitted numeric columns, skip it unless both columns
are present, then add the product feature col1_x_col2 and the ratio feature
col1_div_col2 with the eps-guarded denominator. -/
def create_interaction_features (numeric_cols : List String) (df : DataFrame) : DataFrame :=
  (pairCombos (numeric_cols.take 10)).foldl (fun acc pr =>
    match acc.getCol pr.1, acc.getCol pr.2 with
    | some c1, some c2 =>
      (acc.setCol (mkNumColumn (pr.1 ++ "_x_" ++ pr.2)
          (interactionMul c1.numCells c2.numCells))).setCol
        (mkNumColumn (pr.1 ++ "_div_" ++ pr.2)
          (interactionDiv c1.numCells c2.numCells))
    | _, _ => acc) df

/-- A heap of pandas DataFrame objects: a Python variable holds a reference
(a number); frames maps each live reference to the current contents of the
object behind it. -/
structure Store where
  frames : List (Nat × DataFrame)
  next : Nat

/-- Dereference a DataFrame variable. -/
def Store.get (s : Store) (r : Nat) : Option DataFrame :=
  (s.frames.find? (fun p => p.1 = r)).map (fun p => p.2)

/-- In-place mutation of the object behind a reference, as performed by
column assignment X[col] = values. -/
def Store.put (s : Store) (r : Nat) (df : DataFrame) : Store :=
  { frames := s.frames.map (fun p => if p.1 = r then (r, df) else p), next := s.next }

/-- Allocation of a fresh object. -/
def Store.alloc (s : Store) (df : DataFrame) : Nat × Store :=
  (s.next, { frames := (s.next, df) :: s.frames, next := s.next + 1 })

/-- Pandas X.copy(): allocate a deep copy of the referenced frame. -/
def Store.copyFrame (s : Store) (r : Nat) : Nat × Store :=
  match s.get r with
  | some df => s.alloc df
  | none => s.alloc (DataFrame.mk [])

/-- Store well-formedness: every live reference is below the allocation
counter. -/
def Store.wfS (s : Store) : Prop := ∀ p ∈ s.frames, p.1 < s.next

/-- Shared shape of SmartMissingValueImputer._transform_impl and
AdvancedFeatureEngineer._transform_impl: X_transformed = X.copy(), then a
sequence of in-place writes that each read the current copy and write the
updated frame back to the copy, returning the copy. -/
def copyThenWrite (steps : List (DataFrame → DataFrame)) (s : Store) (x : Nat) :
    Nat × Store :=
  let r := s.copyFrame x
  (r.1, steps.foldl (fun st f =>
    match st.get r.1 with
    | some df => st.put r.1 (f df)
    | none => st) r.2)

/-- SmartMissingValueImputer._transform_impl over the store: one write per
fitted column, skipped when the column is absent; the library outputs
(SimpleImputer.transform into one column, KNNImputer.transform into the
numeric columns) are the parameters simpleOut and knnOut. -/
def imputer_transform_impl (strategies : List (String × String))
    (simpleOut : String → DataFrame → DataFrame) (knnOut : DataFrame → DataFrame)
    (s : Store) (x : Nat) : Nat × Store :=
  copyThenWrite (strategies.map (fun pr df =>
    if df.cols.any (fun d => d.name = pr.1) then
      (if pr.2 = "knn" then knnOut df else simpleOut pr.1 df)
    else df)) s x

/-- AdvancedFeatureEngineer._transform_impl over the store: the date,
polynomial and interaction passes each mutate the copy in place, gated by
the constructor flags; the date pass is the parameter dateF (datetime
decomposition is a pandas library call). -/
def engineer_transform_impl (dateF polyF interF : DataFrame → DataFrame)
    (create_date create_poly create_inter : Bool) (s : Store) (x : Nat) : Nat × Store :=
  copyThenWrite ((if create_date then [dateF] else [])
    ++ (if create_poly then [polyF] else [])
    ++ (if create_inter then [interF] else [])) s x

/-- ModelConfig dataclass: model type, hyperparameters (heterogeneous values
as Val) and the defaulted training settings. -/
structure ModelConfig where
  model_type : String
  hyperparameters : List (String × Val)
  cross_validation_folds : Nat := 5
  random_state : Int := 42
  test_size : Rat := 1/5
deriving DecidableEq, Repr

/-- ModelMetrics dataclass.  Scores are exact rationals standing in for
floats; cv_std alone lives in the reals because numpy std takes a square
root.  The recall field carries a trailing underscore because recall is a
reserved word here. -/
structure ModelMetrics where
  accuracy : Rat
  precision : Rat
  recall_ : Rat
  f1_score : Rat
  cv_scores : List Rat
  cv_mean : Rat
  cv_std : Real

/-- Numpy arr.mean(). -/
def npMean (xs : List Rat) : Rat := xs.sum / (xs.length : Rat)

/-- Population variance (numpy default ddof = 0): mean squared deviation
from the mean. -/
def npVariance (xs : List Rat) : Rat :=
  (xs.map (fun x => (x - npMean xs) ^ 2)).sum / (xs.length : Rat)

/-- Numpy arr.std(): square root of the population variance. -/
noncomputable def npStd (xs : List Rat) : Real :=
  Real.sqrt ((npVariance xs : Rat) : Real)

/-- MLOpsModelTrainer._evaluate_model, after the library calls: cv_scores
comes from sklearn cross_val_score (passed in here; sklearn documents that
its length equals the cv argument, config.cross_validation_folds), the four
test-set scores come from sklearn.metrics, and the method itself only
assembles ModelMetrics with cv_scores.mean() and cv_scores.std(). -/
noncomputable def evaluate_model (cv_scores : List Rat)
    (accuracy prec recl f1 : Rat) : ModelMetrics :=
  { accuracy := accuracy, precision := prec, recall_ := recl, f1_score := f1,
    cv_scores := cv_scores, cv_mean := npMean cv_scores, cv_std := npStd cv_scores }

/-- Keyword arguments beyond X and y in the train_test_split call of
DataSciencePipeline.train_models; stratify records whether a stratify array
is passed. -/
structure TrainTestSplitArgs where
  test_size : Option Rat
  random_state : Option Int
  stratify : Bool
deriving DecidableEq, Repr

/-- The call site in train_models: test_size=0.2, random_state=42,
stratify=y. -/
def train_models_split_call : TrainTestSplitArgs :=
  { test_size := some (1/5), random_state := some 42, stratify := true }

/-- The sklearn library defaults: test_size=None, random_state=None,
stratify=None. -/
def train_test_split_defaults : TrainTestSplitArgs :=
  { test_size := none, random_state := none, stratify := false }

/-- The per-model ModelConfig values built inside train_models. -/
def train_models_configs : String → Option ModelConfig
  | "random_forest" =>
    some { model_type := "random_forest"
           hyperparameters := [("n_estimators", Val.vInt 100), ("max_depth", Val.vInt 10)] }
  | "gradient_boosting" =>
    some { model_type := "gradient_boosting"
           hyperparameters := [("n_estimators", Val.vInt 100), ("learning_rate", Val.vRat (1/10))] }
  | "logistic_regression" =>
    some { model_type := "logistic_regression"
           hyperparameters := [("max_iter", Val.vInt 1000)] }
  | _ => none

/-- Keyword arguments MLOpsModelTrainer.train_model passes to the model
constructor: random_state=config.random_state followed by the unpacked
config.hyperparameters. -/
def model_constructor_args (cfg : ModelConfig) : List (String × Val) :=
  ("random_state", Val.vInt cfg.random_state) :: cfg.hyperparameters

/-- Disk contents for joblib: serialized models by path.  Models are opaque
(any type M); that joblib.dump followed by joblib.load reproduces an equal
object is the pickle round-trip contract of the library. -/
structure ModelDisk (M : Type) where
  entries : List (String × M)

/-- MLOpsModelTrainer.save_model: joblib.dump(model, model_path). -/
def save_model {M : Type} (d : ModelDisk M) (model : M) (model_path : String) :
    ModelDisk M :=
  { entries := (model_path, model) :: d.entries }

/-- MLOpsModelTrainer.load_model: joblib.load(model_path). -/
def load_model {M : Type} (d : ModelDisk M) (model_path : String) : Option M :=
  (d.entries.find? (fun p => p.1 = model_path)).map (fun p => p.2)

/-- C2: for every DataFrame with at least one row and one column, the quality
report has total_rows and total_columns equal to the shape, and quality_score
equals 1.0 minus 0.5 times the missing-cell ratio minus 0.5 times the
duplicate-row ratio. -/
theorem generate_quality_report_correct (df : DataFrame)
    (_hr : 0 < df.nRows) (_hc : 0 < df.cols.length) :
    (generate_quality_report df).total_rows = df.nRows ∧
    (generate_quality_report df).total_columns = df.cols.length ∧
    (generate_quality_report df).quality_score =
      1 - (1/2) * (((df.cols.map Column.missingCount).sum : Rat) / ((df.nRows * df.cols.length : Nat) : Rat))
        - (1/2) * ((df.duplicateRows : Rat) / (df.nRows : Rat)) := by
  refine ⟨rfl, rfl, ?_⟩
  have h1 : ((df.cols.map (fun c => (c.name, c.missingCount))).map (fun p => p.2))
      = df.cols.map Column.missingCount := by
    simp [List.map_map]
  simp only [generate_quality_report, h1]
  ring

/-- Witness for C2 at a concrete one-column, two-row frame. -/
theorem generate_quality_report_correct_witness :
    0 < (DataFrame.mk [Column.mk "a" Dtype.int64 [some (Val.vInt 1), none]]).nRows ∧
    0 < (DataFrame.mk [Column.mk "a" Dtype.int64 [some (Val.vInt 1), none]]).cols.length ∧
    ((generate_quality_report (DataFrame.mk [Column.mk "a" Dtype.int64 [some (Val.vInt 1), none]])).total_rows
        = (DataFrame.mk [Column.mk "a" Dtype.int64 [some (Val.vInt 1), none]]).nRows ∧
      (generate_quality_report (DataFrame.mk [Column.mk "a" Dtype.int64 [some (Val.vInt 1), none]])).total_columns
        = (DataFrame.mk [Column.mk "a" Dtype.int64 [some (Val.vInt 1), none]]).cols.length ∧
      (generate_quality_report (DataFrame.mk [Column.mk "a" Dtype.int64 [some (Val.vInt 1), none]])).quality_score
        = 1 - (1/2) * ((((DataFrame.mk [Column.mk "a" Dtype.int64 [some (Val.vInt 1), none]]).cols.map Column.missingCount).sum : Rat)
              / (((DataFrame.mk [Column.mk "a" Dtype.int64 [some (Val.vInt 1), none]]).nRows
                  * (DataFrame.mk [Column.mk "a" Dtype.int64 [some (Val.vInt 1), none]]).cols.length : Nat) : Rat))
          - (1/2) * (((DataFrame.mk [Column.mk "a" Dtype.int64 [some (Val.vInt 1), none]]).duplicateRows : Rat)
              / ((DataFrame.mk [Column.mk "a" Dtype.int64 [some (Val.vInt 1), none]]).nRows : Rat))) :=
  ⟨by decide, by decide,
    generate_quality_report_correct
      (DataFrame.mk [Column.mk "a" Dtype.int64 [some (Val.vInt 1), none]]) (by decide) (by decide)⟩

/-- C3: constructing a DataConfig fails for every file_type outside the allowed
list, and for every allowed file_type (with an existing file_path) the
validator returns the value unchanged and construction succeeds. -/
theorem validate_file_type_correct (path_exists : String → Bool) (fp v : String) :
    (v ∉ allowed_types → ∃ e, mkDataConfig path_exists fp v = Except.error e) ∧
    (v ∈ allowed_types → validate_file_type v = Except.ok v ∧
      (path_exists fp = true →
        mkDataConfig path_exists fp v = Except.ok { file_path := fp, file_type := v })) := by
  constructor
  · intro hv
    refine ⟨"File type must be one of " ++ String.intercalate ", " allowed_types, ?_⟩
    simp [mkDataConfig, validate_file_type, hv]
  · intro hv
    have hvt : validate_file_type v = Except.ok v := by
      simp [validate_file_type, hv]
    refine ⟨hvt, fun hfp => ?_⟩
    simp [mkDataConfig, hvt, validate_file_exists, hfp]

/-- Witness for C3: the accepted type csv round-trips and the rejected type txt
errors, on a file system where every path exists. -/
theorem validate_file_type_correct_witness :
    validate_file_type "csv" = Except.ok "csv" ∧
    mkDataConfig (fun _ => true) "data.csv" "csv"
      = Except.ok { file_path := "data.csv", file_type := "csv" } ∧
    (∃ e, mkDataConfig (fun _ => true) "data.csv" "txt" = Except.error e) := by
  have hpos := (validate_file_type_correct (fun _ => true) "data.csv" "csv").2 (by decide)
  have hneg := (validate_file_type_correct (fun _ => true) "data.csv" "txt").1 (by decide)
  exact ⟨hpos.1, hpos.2 rfl, hneg⟩

/-- C4: for every transform implementation, transform before fit raises
ValueError; after fitting on a DataFrame with column set C, transform raises
TypeError on non-DataFrame input, raises ValueError when the input lacks some
column of C, and otherwise delegates to the implementation. -/
theorem transformer_contract (impl : DataFrame → Except PyErr DataFrame) (df : DataFrame) :
    (∀ x, transformT impl initTState x
        = Except.error (PyErr.valueError "Transformer not fitted. Call fit() first.")) ∧
    (∀ st, fitT initTState (PyInput.frame df) = Except.ok st →
      st.feature_names = some df.colNames ∧
      transformT impl st PyInput.nonFrame
        = Except.error (PyErr.typeError "Input must be a pandas DataFrame") ∧
      (∀ df2 : DataFrame, (∃ n ∈ df.colNames, n ∉ df2.colNames) →
        ∃ m, transformT impl st (PyInput.frame df2) = Except.error (PyErr.valueError m)) ∧
      (∀ df2 : DataFrame, (∀ n ∈ df.colNames, n ∈ df2.colNames) →
        transformT impl st (PyInput.frame df2) = impl df2)) := by
  constructor
  · intro x
    simp [transformT, initTState]
  · intro st hst
    have hst2 : st = { feature_names := some df.colNames, is_fitted := true } := by
      simpa [fitT, validate_input, initTState] using hst.symm
    subst hst2
    refine ⟨rfl, rfl, ?_, ?_⟩
    · intro df2 hmiss
      rcases hmiss with ⟨n, hn, hnot⟩
      refine ⟨"Missing features", ?_⟩
      have hcond : ¬ ∀ a ∈ df.colNames, a ∈ df2.colNames := fun h => hnot (h n hn)
      simp [transformT, validate_input, hcond]
    · intro df2 hall
      simp [transformT, validate_input, if_pos hall]

/-- Witness for C4 at the identity implementation, fitted on a one-column
frame: unfitted transform errors, a frame missing the column errors, and a
frame containing the column passes through. -/
theorem transformer_contract_witness :
    transformT (fun d => Except.ok d) initTState
        (PyInput.frame (DataFrame.mk [Column.mk "a" Dtype.int64 []]))
      = Except.error (PyErr.valueError "Transformer not fitted. Call fit() first.") ∧
    (∃ m, transformT (fun d => Except.ok d) (TState.mk (some ["a"]) true)
        (PyInput.frame (DataFrame.mk [])) = Except.error (PyErr.valueError m)) ∧
    transformT (fun d => Except.ok d) (TState.mk (some ["a"]) true)
        (PyInput.frame (DataFrame.mk [Column.mk "a" Dtype.int64 []]))
      = Except.ok (DataFrame.mk [Column.mk "a" Dtype.int64 []]) := by
  have h := transformer_contract (fun d => Except.ok d)
    (DataFrame.mk [Column.mk "a" Dtype.int64 []])
  have h2 := h.2 (TState.mk (some ["a"]) true) rfl
  exact ⟨h.1 _, h2.2.2.1 (DataFrame.mk []) (by decide), h2.2.2.2 _ (by decide)⟩

/-- Lookup in the strategies list misses every name carried by no column. -/
theorem lookup_strategies_absent (strategy : String) (cols : List Column) (nm : String)
    (h : ∀ d ∈ cols, d.name ≠ nm) :
    (cols.filterMap (fun d => (imputerStrategyFor strategy d).map (fun s => (d.name, s)))).lookup nm
      = none := by
  induction cols with
  | nil => rfl
  | cons d rest ih =>
    have hd : d.name ≠ nm := h d (by simp)
    have hrest : ∀ e ∈ rest, e.name ≠ nm := fun e he => h e (by simp [he])
    cases hopt : imputerStrategyFor strategy d with
    | none => simpa [List.filterMap_cons, hopt] using ih hrest
    | some s =>
      have hbeq : (nm == d.name) = false := beq_eq_false_iff_ne.mpr (Ne.symm hd)
      simp [List.filterMap_cons, hopt, List.lookup, hbeq, ih hrest]

/-- With pairwise-distinct column names, looking a column up in the
strategies_ dict yields exactly the strategy computed for that column. -/
theorem lookup_strategies_eq (strategy : String) (cols : List Column)
    (hn : (cols.map (fun x => x.name)).Nodup) (c : Column) (hc : c ∈ cols) :
    (cols.filterMap (fun d => (imputerStrategyFor strategy d).map (fun s => (d.name, s)))).lookup c.name
      = imputerStrategyFor strategy c := by
  induction cols with
  | nil => cases hc
  | cons d rest ih =>
    have hn2 : (∀ x ∈ rest, ¬ x.name = d.name) ∧ (rest.map (fun x => x.name)).Nodup := by
      simpa using hn
    rcases List.mem_cons.mp hc with rfl | hmem
    · have habs : ∀ e ∈ rest, e.name ≠ c.name := fun e he heq => hn2.1 e he heq
      cases hopt : imputerStrategyFor strategy c with
      | none =>
        simp [List.filterMap_cons, hopt, lookup_strategies_absent strategy rest c.name habs]
      | some s => simp [List.filterMap_cons, hopt, List.lookup]
    · have hdc : d.name ≠ c.name := fun he => hn2.1 c hmem he.symm
      cases hopt : imputerStrategyFor strategy d with
      | none => simpa [List.filterMap_cons, hopt] using ih hn2.2 hmem
      | some s =>
        have hbeq : (c.name == d.name) = false := beq_eq_false_iff_ne.mpr (Ne.symm hdc)
        simp [List.filterMap_cons, hopt, List.lookup, hbeq, ih hn2.2 hmem]

/-- C5: under strategy auto, a fitted column with no missing values gets no
imputer; object and category columns with missing values get most_frequent;
float64 and int64 columns strictly below ten percent missing get mean; other
dtypes strictly below ten percent missing get most_frequent; and every
remaining column (at least ten percent missing, not object or category)
gets knn. -/
theorem imputer_auto_strategies (df : DataFrame) (c : Column)
    (hn : (df.cols.map (fun x => x.name)).Nodup) (hc : c ∈ df.cols)
    (hrows : 0 < c.cells.length) :
    (c.missingCount = 0 →
      (imputerFitStrategies "auto" df).lookup c.name = none) ∧
    ((c.dtype = Dtype.obj ∨ c.dtype = Dtype.category) → 0 < c.missingCount →
      (imputerFitStrategies "auto" df).lookup c.name = some "most_frequent") ∧
    ((c.dtype = Dtype.float64 ∨ c.dtype = Dtype.int64) → 0 < c.missingCount →
      c.missingRatio < 1/10 →
      (imputerFitStrategies "auto" df).lookup c.name = some "mean") ∧
    (¬(c.dtype = Dtype.obj ∨ c.dtype = Dtype.category) →
      ¬(c.dtype = Dtype.float64 ∨ c.dtype = Dtype.int64) → 0 < c.missingCount →
      c.missingRatio < 1/10 →
      (imputerFitStrategies "auto" df).lookup c.name = some "most_frequent") ∧
    (¬(c.dtype = Dtype.obj ∨ c.dtype = Dtype.category) → 1/10 ≤ c.missingRatio →
      (imputerFitStrategies "auto" df).lookup c.name = some "knn") := by
  have hlook : (imputerFitStrategies "auto" df).lookup c.name = imputerStrategyFor "auto" c :=
    lookup_strategies_eq "auto" df.cols hn c hc
  have hlen : (0 : Rat) < (c.cells.length : Rat) := by exact_mod_cast hrows
  refine ⟨?_, ?_, ?_, ?_, ?_⟩
  · intro hmc
    have hr : c.missingRatio = 0 := by simp [Column.missingRatio, hmc]
    rw [hlook]
    simp [imputerStrategyFor, hr]
  · intro hd hmc
    have hr0 : c.missingRatio ≠ 0 :=
      ne_of_gt (div_pos (by exact_mod_cast hmc) hlen)
    rw [hlook]
    simp [imputerStrategyFor, hr0, hd]
  · intro hd hmc hlt
    have hr0 : c.missingRatio ≠ 0 :=
      ne_of_gt (div_pos (by exact_mod_cast hmc) hlen)
    have hnotoc : ¬(c.dtype = Dtype.obj ∨ c.dtype = Dtype.category) := by
      rcases hd with h | h <;> simp [h]
    have hlt2 : c.missingRatio < 10⁻¹ := by simpa using hlt
    rw [hlook]
    simp [imputerStrategyFor, hr0, hnotoc, hlt2, hd]
  · intro hnotoc hnotfi hmc hlt
    have hr0 : c.missingRatio ≠ 0 :=
      ne_of_gt (div_pos (by exact_mod_cast hmc) hlen)
    have hlt2 : c.missingRatio < 10⁻¹ := by simpa using hlt
    rw [hlook]
    simp [imputerStrategyFor, hr0, hnotoc, hlt2, hnotfi]
  · intro hnotoc hge
    have hr0 : c.missingRatio ≠ 0 := ne_of_gt (lt_of_lt_of_le (by norm_num) hge)
    have hnotlt : ¬ c.missingRatio < 10⁻¹ := by
      simpa using not_lt.mpr hge
    rw [hlook]
    simp [imputerStrategyFor, hr0, hnotoc, hnotlt]

/-- Witness for C5 on a two-column frame: a float64 column with half of its
cells missing gets knn, and a fully observed int64 column gets no imputer. -/
theorem imputer_auto_strategies_witness :
    (imputerFitStrategies "auto"
        (DataFrame.mk [Column.mk "a" Dtype.float64 [some (Val.vRat 1), none],
          Column.mk "b" Dtype.int64 [some (Val.vInt 3), some (Val.vInt 4)]])).lookup "a"
      = some "knn" ∧
    (imputerFitStrategies "auto"
        (DataFrame.mk [Column.mk "a" Dtype.float64 [some (Val.vRat 1), none],
          Column.mk "b" Dtype.int64 [some (Val.vInt 3), some (Val.vInt 4)]])).lookup "b"
      = none := by
  have ha := imputer_auto_strategies
    (DataFrame.mk [Column.mk "a" Dtype.float64 [some (Val.vRat 1), none],
      Column.mk "b" Dtype.int64 [some (Val.vInt 3), some (Val.vInt 4)]])
    (Column.mk "a" Dtype.float64 [some (Val.vRat 1), none])
    (by decide) (by simp) (by decide)
  have hb := imputer_auto_strategies
    (DataFrame.mk [Column.mk "a" Dtype.float64 [some (Val.vRat 1), none],
      Column.mk "b" Dtype.int64 [some (Val.vInt 3), some (Val.vInt 4)]])
    (Column.mk "b" Dtype.int64 [some (Val.vInt 3), some (Val.vInt 4)])
    (by decide) (by simp) (by decide)
  refine ⟨?_, ?_⟩
  · refine ha.2.2.2.2 (by decide) ?_
    norm_num [Column.missingRatio, Column.missingCount, List.countP_cons]
    rw [if_neg (by simp)]
    norm_num
  · exact hb.1 (by decide)

/-- The fold computing col.min() bounds every listed value from below. -/
theorem listMinI_le (zs : List Int) : ∀ z x, (x = z ∨ x ∈ zs) → listMinI z zs ≤ x := by
  induction zs with
  | nil =>
    intro z x hx
    rcases hx with rfl | h
    · exact le_refl x
    · cases h
  | cons a t ih =>
    intro z x hx
    have hstep : listMinI z (a :: t) = listMinI (min z a) t := rfl
    rcases hx with rfl | hx
    · rw [hstep]
      exact le_trans (ih (min x a) (min x a) (Or.inl rfl)) (min_le_left x a)
    · rcases List.mem_cons.mp hx with rfl | hxt
      · rw [hstep]
        exact le_trans (ih (min z x) (min z x) (Or.inl rfl)) (min_le_right z x)
      · rw [hstep]
        exact ih (min z a) x (Or.inr hxt)

/-- The fold computing col.max() bounds every listed value from above. -/
theorem le_listMaxI (zs : List Int) : ∀ z x, (x = z ∨ x ∈ zs) → x ≤ listMaxI z zs := by
  induction zs with
  | nil =>
    intro z x hx
    rcases hx with rfl | h
    · exact le_refl x
    · cases h
  | cons a t ih =>
    intro z x hx
    have hstep : listMaxI z (a :: t) = listMaxI (max z a) t := rfl
    rcases hx with rfl | hx
    · rw [hstep]
      exact le_trans (le_max_left x a) (ih (max x a) (max x a) (Or.inl rfl))
    · rcases List.mem_cons.mp hx with rfl | hxt
      · rw [hstep]
        exact le_trans (le_max_right z x) (ih (max z x) (max z x) (Or.inl rfl))
      · rw [hstep]
        exact ih (max z a) x (Or.inr hxt)

/-- A stored integer cell contributes its value to intVals. -/
theorem mem_intVals_of_cell (c : Column) (v : Int) (h : some (Val.vInt v) ∈ c.cells) :
    v ∈ c.intVals :=
  List.mem_filterMap.mpr ⟨some (Val.vInt v), h, rfl⟩

/-- Core of C8: the integer downcast of one column never changes any stored
cell, because each astype is guarded by min/max bounds that keep every value
inside the target range, where the wrap-around is the identity. -/
theorem optimizeIntColumn_cells (c : Column) : (optimizeIntColumn c).cells = c.cells := by
  unfold optimizeIntColumn
  split
  · rfl
  next z zs heq =>
    have hbound : ∀ v : Int, some (Val.vInt v) ∈ c.cells →
        listMinI z zs ≤ v ∧ v ≤ listMaxI z zs := by
      intro v hv
      have hmem : v ∈ c.intVals := mem_intVals_of_cell c v hv
      rw [heq] at hmem
      rcases List.mem_cons.mp hmem with rfl | hmemt
      · exact ⟨listMinI_le zs v v (Or.inl rfl), le_listMaxI zs v v (Or.inl rfl)⟩
      · exact ⟨listMinI_le zs z v (Or.inr hmemt), le_listMaxI zs z v (Or.inr hmemt)⟩
    have preserve : ∀ (w : Nat) (lo hi : Int) (d : Dtype),
        (∀ v : Int, some (Val.vInt v) ∈ c.cells → lo ≤ v ∧ v ≤ hi) →
        (∀ v : Int, lo ≤ v → v ≤ hi → v % (2 ^ w) = v) →
        (astypeUnsigned w c d).cells = c.cells := by
      intro w lo hi d hb hw
      simp only [astypeUnsigned]
      conv_rhs => rw [← List.map_id c.cells]
      apply List.map_congr_left
      intro x hx
      match x with
      | none => rfl
      | some (Val.vRat q) => rfl
      | some (Val.vStr s) => rfl
      | some (Val.vInt v) =>
        have h2 := hb v hx
        simp [hw v h2.1 h2.2]
    have preserveS : ∀ (w : Nat) (lo hi : Int) (d : Dtype),
        (∀ v : Int, some (Val.vInt v) ∈ c.cells → lo ≤ v ∧ v ≤ hi) →
        (∀ v : Int, lo ≤ v → v ≤ hi → (v + 2 ^ (w - 1)) % (2 ^ w) - 2 ^ (w - 1) = v) →
        (astypeSigned w c d).cells = c.cells := by
      intro w lo hi d hb hw
      simp only [astypeSigned]
      conv_rhs => rw [← List.map_id c.cells]
      apply List.map_congr_left
      intro x hx
      match x with
      | none => rfl
      | some (Val.vRat q) => rfl
      | some (Val.vStr s) => rfl
      | some (Val.vInt v) =>
        have h2 := hb v hx
        simp [hw v h2.1 h2.2]
    split_ifs with h1 h2 h3 h4 h5 h6 h7
    · exact preserve 8 (listMinI z zs) (listMaxI z zs) Dtype.uint8 hbound
        (fun v hv1 hv2 => by omega)
    · exact preserve 16 (listMinI z zs) (listMaxI z zs) Dtype.uint16 hbound
        (fun v hv1 hv2 => by omega)
    · exact preserve 32 (listMinI z zs) (listMaxI z zs) Dtype.uint32 hbound
        (fun v hv1 hv2 => by omega)
    · rfl
    · exact preserveS 8 (listMinI z zs) (listMaxI z zs) Dtype.int8 hbound
        (fun v hv1 hv2 => by omega)
    · exact preserveS 16 (listMinI z zs) (listMaxI z zs) Dtype.int16 hbound
        (fun v hv1 hv2 => by omega)
    · exact preserveS 32 (listMinI z zs) (listMaxI z zs) Dtype.int32 hbound
        (fun v hv1 hv2 => by omega)
    · rfl

/-- C8: _optimize_dtypes never changes any stored integer value: every int64
column of the input reappears (at its position, with its name) with exactly
the same cells after the optimization. -/
theorem optimize_dtypes_preserves_int_values (df : DataFrame) (c : Column)
    (hc : c ∈ df.cols) (hd : c.dtype = Dtype.int64) :
    optimizeIntColumn c ∈ (optimize_dtypes df).cols ∧
    (optimizeIntColumn c).name = c.name ∧
    (optimizeIntColumn c).cells = c.cells := by
  refine ⟨?_, ?_, optimizeIntColumn_cells c⟩
  · have : (fun x => if x.dtype = Dtype.int64 then optimizeIntColumn x else x) c
        = optimizeIntColumn c := by simp [hd]
    exact this ▸ List.mem_map_of_mem _ hc
  · unfold optimizeIntColumn
    split
    · rfl
    · split_ifs <;> rfl

/-- Witness for C8 on a one-column frame whose int64 values 300 and -5 take
the int16 branch. -/
theorem optimize_dtypes_preserves_int_values_witness :
    optimizeIntColumn (Column.mk "n" Dtype.int64 [some (Val.vInt 300), some (Val.vInt (-5))])
        ∈ (optimize_dtypes (DataFrame.mk
            [Column.mk "n" Dtype.int64 [some (Val.vInt 300), some (Val.vInt (-5))]])).cols ∧
    (optimizeIntColumn (Column.mk "n" Dtype.int64 [some (Val.vInt 300), some (Val.vInt (-5))])).name
      = "n" ∧
    (optimizeIntColumn (Column.mk "n" Dtype.int64 [some (Val.vInt 300), some (Val.vInt (-5))])).cells
      = [some (Val.vInt 300), some (Val.vInt (-5))] :=
  optimize_dtypes_preserves_int_values
    (DataFrame.mk [Column.mk "n" Dtype.int64 [some (Val.vInt 300), some (Val.vInt (-5))]])
    (Column.mk "n" Dtype.int64 [some (Val.vInt 300), some (Val.vInt (-5))])
    (by simp) rfl

/-- C10: the ratio features of _create_interaction_features use denominator
col2 + 1e-8; whenever no value of the second column equals -1e-8 (in
particular whenever its values are nonnegative), every denominator is
nonzero and the unguarded division of the source agrees everywhere with the
guarded division. -/
theorem interaction_ratio_denominator_safe (a b : List (Option Rat))
    (h : ∀ q : Rat, some q ∈ b → q ≠ -eps) :
    (∀ q : Rat, some q ∈ b → q + eps ≠ 0) ∧
    interactionDiv a b = checkedInteractionDiv a b := by
  constructor
  · intro q hq hzero
    exact h q hq (by linarith)
  · induction a generalizing b with
    | nil => simp [interactionDiv, checkedInteractionDiv]
    | cons x xs ih =>
      cases b with
      | nil => simp [interactionDiv, checkedInteractionDiv]
      | cons y ys =>
        have hys : ∀ q : Rat, some q ∈ ys → q ≠ -eps := fun q hq => h q (by simp [hq])
        have htail := ih ys hys
        cases y with
        | none =>
          simpa [interactionDiv, checkedInteractionDiv] using htail
        | some v =>
          have hv : v + eps ≠ 0 := fun hzero => h v (by simp) (by linarith)
          cases x with
          | none => simpa [interactionDiv, checkedInteractionDiv] using htail
          | some u =>
            simpa [interactionDiv, checkedInteractionDiv, hv] using htail

/-- Witness for C10 on columns containing a zero: the guard keeps the zero
denominator away and both computations agree. -/
theorem interaction_ratio_denominator_safe_witness :
    (∀ q : Rat, some q ∈ [some (0 : Rat), some 3, none] → q + eps ≠ 0) ∧
    interactionDiv [some (1 : Rat), some 2, some 5] [some (0 : Rat), some 3, none]
      = checkedInteractionDiv [some (1 : Rat), some 2, some 5] [some (0 : Rat), some 3, none] := by
  refine interaction_ratio_denominator_safe _ _ ?_
  intro q hq
  rcases List.mem_cons.mp hq with h0 | hq2
  · intro he
    rw [Option.some_inj.mp h0] at he
    norm_num [eps] at he
  · rcases List.mem_cons.mp hq2 with h3 | hq3
    · intro he
      rw [Option.some_inj.mp h3] at he
      norm_num [eps] at he
    · simp at hq3

/-- Updating the entry of one reference leaves every other lookup alone. -/
theorem find_map_put (l : List (Nat × DataFrame)) (r r2 : Nat) (df : DataFrame)
    (h : r ≠ r2) :
    (l.map (fun p => if p.1 = r2 then (r2, df) else p)).find? (fun p => p.1 = r)
      = l.find? (fun p => p.1 = r) := by
  induction l with
  | nil => rfl
  | cons p t ih =>
    rw [List.map_cons, List.find?_cons, List.find?_cons]
    by_cases hp : p.1 = r2
    · rw [if_pos hp]
      have e1 : decide (((r2, df) : Nat × DataFrame).1 = r) = false := by
        simp
        exact fun he => h he.symm
      have e2 : decide (p.1 = r) = false := by
        simp [hp]
        exact fun he => h he.symm
      rw [e1, e2]
      exact ih
    · rw [if_neg hp]
      by_cases hpr : p.1 = r
      · have e : decide (p.1 = r) = true := by simp [hpr]
        rw [e]
      · have e : decide (p.1 = r) = false := by simp [hpr]
        rw [e]
        exact ih

/-- Store.put at another reference does not change a lookup. -/
theorem Store.get_put_ne (s : Store) (r r2 : Nat) (df : DataFrame) (h : r ≠ r2) :
    (s.put r2 df).get r = s.get r := by
  unfold Store.put Store.get
  rw [find_map_put s.frames r r2 df h]

/-- A sequence of read-modify-write steps against one reference leaves every
other reference untouched. -/
theorem foldl_writes_ne (steps : List (DataFrame → DataFrame)) (n x : Nat) (h : x ≠ n) :
    ∀ st : Store,
      (steps.foldl (fun st f =>
        match st.get n with
        | some df => st.put n (f df)
        | none => st) st).get x = st.get x := by
  induction steps with
  | nil => intro st; rfl
  | cons f t ih =>
    intro st
    cases hget : st.get n with
    | none => simpa [List.foldl_cons, hget] using ih st
    | some df =>
      have step : (List.foldl (fun st f =>
          match st.get n with
          | some df => st.put n (f df)
          | none => st) st (f :: t))
          = List.foldl (fun st f =>
            match st.get n with
            | some df => st.put n (f df)
            | none => st) (st.put n (f df)) t := by
        simp [List.foldl_cons, hget]
      rw [step, ih (st.put n (f df)), Store.get_put_ne st x n (f df) h]

/-- Core frame lemma: copy-then-write returns a fresh reference and leaves
the frame behind the argument reference exactly as it was. -/
theorem copyThenWrite_frame (steps : List (DataFrame → DataFrame)) (s : Store) (x : Nat)
    (hwf : Store.wfS s) (hx : s.get x ≠ none) :
    (copyThenWrite steps s x).1 ≠ x ∧
    (copyThenWrite steps s x).2.get x = s.get x := by
  obtain ⟨df, hdf⟩ : ∃ df, s.get x = some df := by
    cases hg : s.get x with
    | none => exact absurd hg hx
    | some df => exact ⟨df, rfl⟩
  obtain ⟨p, hfind, hp2⟩ : ∃ p, s.frames.find? (fun p => p.1 = x) = some p ∧ p.2 = df := by
    unfold Store.get at hdf
    cases hf : s.frames.find? (fun p => p.1 = x) with
    | none => rw [hf] at hdf; cases hdf
    | some p =>
      rw [hf] at hdf
      exact ⟨p, rfl, Option.some_inj.mp hdf⟩
  have hpx : p.1 = x := by
    have := List.find?_some hfind
    simpa using this
  have hxlt : x < s.next := hpx ▸ hwf p (List.mem_of_find?_eq_some hfind)
  have hxn : x ≠ s.next := Nat.ne_of_lt hxlt
  have hcopy : s.copyFrame x = (s.next, Store.mk ((s.next, df) :: s.frames) (s.next + 1)) := by
    unfold Store.copyFrame
    rw [hdf]
    rfl
  constructor
  · show (copyThenWrite steps s x).1 ≠ x
    unfold copyThenWrite
    rw [hcopy]
    exact Ne.symm hxn
  · unfold copyThenWrite
    rw [hcopy]
    have hmid : (Store.mk ((s.next, df) :: s.frames) (s.next + 1)).get x = s.get x := by
      unfold Store.get
      simp [List.find?, Ne.symm hxn]
    rw [foldl_writes_ne steps s.next x hxn _, hmid]

/-- C9: both _transform_impl methods return a reference distinct from their
argument and leave the frame behind the argument unchanged, whatever the
fitted imputers and engineering passes compute. -/
theorem transform_impl_leaves_input_unchanged
    (strategies : List (String × String))
    (simpleOut : String → DataFrame → DataFrame) (knnOut : DataFrame → DataFrame)
    (dateF polyF interF : DataFrame → DataFrame) (b1 b2 b3 : Bool)
    (s : Store) (x : Nat) (hwf : Store.wfS s) (hx : s.get x ≠ none) :
    ((imputer_transform_impl strategies simpleOut knnOut s x).1 ≠ x ∧
      (imputer_transform_impl strategies simpleOut knnOut s x).2.get x = s.get x) ∧
    ((engineer_transform_impl dateF polyF interF b1 b2 b3 s x).1 ≠ x ∧
      (engineer_transform_impl dateF polyF interF b1 b2 b3 s x).2.get x = s.get x) :=
  ⟨copyThenWrite_frame _ s x hwf hx, copyThenWrite_frame _ s x hwf hx⟩

/-- Witness for C9 on a one-object store: the imputer (mean on column a) and
the engineer (all passes on, interactions from columns a and b) both leave
object 0 untouched and return a different reference. -/
theorem transform_impl_leaves_input_unchanged_witness :
    ((imputer_transform_impl [("a", "mean")] (fun _ df => df) (fun df => df)
        (Store.mk [(0, DataFrame.mk [])] 1) 0).1 ≠ 0 ∧
      (imputer_transform_impl [("a", "mean")] (fun _ df => df) (fun df => df)
        (Store.mk [(0, DataFrame.mk [])] 1) 0).2.get 0
        = (Store.mk [(0, DataFrame.mk [])] 1).get 0) ∧
    ((engineer_transform_impl (fun df => df) (fun df => df)
        (create_interaction_features ["a", "b"]) true true true
        (Store.mk [(0, DataFrame.mk [])] 1) 0).1 ≠ 0 ∧
      (engineer_transform_impl (fun df => df) (fun df => df)
        (create_interaction_features ["a", "b"]) true true true
        (Store.mk [(0, DataFrame.mk [])] 1) 0).2.get 0
        = (Store.mk [(0, DataFrame.mk [])] 1).get 0) :=
  transform_impl_leaves_input_unchanged [("a", "mean")] (fun _ df => df) (fun df => df)
    (fun df => df) (fun df => df) (create_interaction_features ["a", "b"]) true true true
    (Store.mk [(0, DataFrame.mk [])] 1) 0
    (by intro p hp; simp at hp; simp [hp])
    (by simp [Store.get, List.find?])

/-- C6: the metrics built by _evaluate_model keep all folds of cv_scores
(length = cross_validation_folds given the sklearn length contract on
cross_val_score), cv_mean is the arithmetic mean (stated multiplicatively:
mean times the fold count is the sum), and cv_std is the population
standard deviation (nonnegative, with square equal to the mean squared
deviation, stated multiplicatively). -/
theorem evaluate_model_cv (cv_scores : List Rat) (folds : Nat) (a p r f : Rat)
    (hlen : cv_scores.length = folds) (hpos : 0 < folds) :
    (evaluate_model cv_scores a p r f).cv_scores.length = folds ∧
    (evaluate_model cv_scores a p r f).cv_mean * (folds : Rat) = cv_scores.sum ∧
    (evaluate_model cv_scores a p r f).cv_std ^ 2 * (folds : Real)
      = (((cv_scores.map (fun x => (x - npMean cv_scores) ^ 2)).sum : Rat) : Real) ∧
    0 ≤ (evaluate_model cv_scores a p r f).cv_std := by
  have hne : ((folds : Nat) : Rat) ≠ 0 := by
    exact_mod_cast Nat.pos_iff_ne_zero.mp hpos
  refine ⟨hlen, ?_, ?_, Real.sqrt_nonneg _⟩
  · show npMean cv_scores * (folds : Rat) = cv_scores.sum
    rw [npMean, hlen]
    field_simp
  · show npStd cv_scores ^ 2 * (folds : Real)
      = (((cv_scores.map (fun x => (x - npMean cv_scores) ^ 2)).sum : Rat) : Real)
    have hvar : 0 ≤ ((npVariance cv_scores : Rat) : Real) := by
      have h1 : 0 ≤ npVariance cv_scores := by
        rw [npVariance]
        apply div_nonneg
        · apply List.sum_nonneg
          intro q hq
          rcases List.mem_map.mp hq with ⟨x, _, rfl⟩
          exact sq_nonneg _
        · exact_mod_cast Nat.zero_le _
      exact_mod_cast h1
    rw [npStd, Real.sq_sqrt hvar, npVariance, hlen]
    push_cast
    field_simp

/-- Witness for C6 at two concrete fold scores. -/
theorem evaluate_model_cv_witness :
    ([(1 : Rat)/2, 1] : List Rat).length = 2 ∧ 0 < 2 ∧
    ((evaluate_model [(1 : Rat)/2, 1] 1 1 1 1).cv_scores.length = 2 ∧
      (evaluate_model [(1 : Rat)/2, 1] 1 1 1 1).cv_mean * ((2 : Nat) : Rat)
        = ([(1 : Rat)/2, 1] : List Rat).sum ∧
      (evaluate_model [(1 : Rat)/2, 1] 1 1 1 1).cv_std ^ 2 * ((2 : Nat) : Real)
        = (((([(1 : Rat)/2, 1] : List Rat).map
            (fun x => (x - npMean [(1 : Rat)/2, 1]) ^ 2)).sum : Rat) : Real) ∧
      0 ≤ (evaluate_model [(1 : Rat)/2, 1] 1 1 1 1).cv_std) :=
  ⟨rfl, by norm_num, evaluate_model_cv [(1 : Rat)/2, 1] 2 1 1 1 1 rfl (by norm_num)⟩

/-- C1 counterexample: the claim that train_models invokes the constructors
and the split with library defaults and no explicit hyperparameters is
false: the split call differs from the sklearn defaults, and the
random_forest constructor receives a nonempty argument list. -/
theorem train_models_args_not_default :
    train_models_split_call ≠ train_test_split_defaults ∧
    (train_models_configs "random_forest").map
        (fun cfg => cfg.hyperparameters) ≠ some [] ∧
    (train_models_configs "random_forest").map model_constructor_args ≠ some [] := by
  refine ⟨?_, ?_, ?_⟩
  · intro he
    have := congrArg TrainTestSplitArgs.stratify he
    simp [train_models_split_call, train_test_split_defaults] at this
  · intro he
    simp [train_models_configs] at he
  · intro he
    simp [train_models_configs, model_constructor_args] at he

/-- C1 amended: train_models passes the split explicit test_size 0.2,
random_state 42 and a stratify array, and each trained model type gets an
explicit random_state plus explicit hyperparameters (random_forest:
n_estimators 100 and max_depth 10; gradient_boosting: n_estimators 100 and
learning_rate 0.1; logistic_regression: max_iter 1000). -/
theorem train_models_explicit_args :
    train_models_split_call.test_size = some (1/5) ∧
    train_models_split_call.random_state = some 42 ∧
    train_models_split_call.stratify = true ∧
    (train_models_configs "random_forest").map model_constructor_args
      = some [("random_state", Val.vInt 42), ("n_estimators", Val.vInt 100),
          ("max_depth", Val.vInt 10)] ∧
    (train_models_configs "gradient_boosting").map model_constructor_args
      = some [("random_state", Val.vInt 42), ("n_estimators", Val.vInt 100),
          ("learning_rate", Val.vRat (1/10))] ∧
    (train_models_configs "logistic_regression").map model_constructor_args
      = some [("random_state", Val.vInt 42), ("max_iter", Val.vInt 1000)] :=
  ⟨rfl, rfl, rfl, rfl, rfl, rfl⟩

/-- C7: model persistence round-trips: saving a model and loading the same
path returns the model, for any model type, prior disk contents and path. -/
theorem save_load_roundtrip {M : Type} (d : ModelDisk M) (m : M) (p : String) :
    load_model (save_model d m p) p = some m := by
  simp [save_model, load_model, List.find?]
